import Mathlib

/-!
Verification development for the pgboss-pgmock-vitest-demo repository.

The repository is a test harness exercising two disposable PostgreSQL
backends (the pgmock WASM emulator and a testcontainers-managed real
Postgres) through the pg client and the pg-boss job queue.  The
definitions below shallowly embed:

* the scoped-acquisition wrappers of the test files
  (withMockClient, withContainerClient, withMockClientAndBoss) as
  functions from the success/failure of each awaited step to the
  propagated outcome together with an event trace recording which
  lifecycle calls actually ran;
* the connection-string builder used to hand the emulator to pg-boss;
* the observable SQL behaviour the tests rely on (users table,
  relation-does-not-exist errors) and the pg-boss queue contract,
  modelled from the specification of the external dependencies.
-/

/-- Lifecycle events performed by the wrappers, in the order they run. -/
inductive Ev where
  | mockCreate
  | clientConnect
  | clientEnd
  | mockDestroy
  | containerStart
  | containerStop
  | bossStart
  | bossStop
deriving DecidableEq, Repr

/-- Shallow embedding of withMockClient from src/pgmock-demo.test.ts.
PostgresMock.create and client.connect are awaited before the try block;
the finally clause runs client.end and then mock.destroy.  provisionOk
and connectOk say whether those two awaited calls succeed; body is the
outcome of the test body fn (an Except.error covers both thrown errors
and assertion failures).  The returned pair is the propagated outcome
and the trace of lifecycle events that ran. -/
def withMockClient {α : Type} (provisionOk connectOk : Bool)
    (body : Except String α) : Except String α × List Ev :=
  if provisionOk then
    if connectOk then
      match body with
      | Except.ok a =>
        (Except.ok a, [Ev.mockCreate, Ev.clientConnect, Ev.clientEnd, Ev.mockDestroy])
      | Except.error e =>
        (Except.error e, [Ev.mockCreate, Ev.clientConnect, Ev.clientEnd, Ev.mockDestroy])
    else (Except.error "client.connect failed", [Ev.mockCreate])
  else (Except.error "PostgresMock.create failed", [])

/-- Shallow embedding of withContainerClient from
src/testcontainers-demo.test.ts.  PostgreSqlContainer start and
client.connect are awaited before the try block; the finally clause runs
client.end and then container.stop. -/
def withContainerClient {α : Type} (provisionOk connectOk : Bool)
    (body : Except String α) : Except String α × List Ev :=
  if provisionOk then
    if connectOk then
      match body with
      | Except.ok a =>
        (Except.ok a, [Ev.containerStart, Ev.clientConnect, Ev.clientEnd, Ev.containerStop])
      | Except.error e =>
        (Except.error e, [Ev.containerStart, Ev.clientConnect, Ev.clientEnd, Ev.containerStop])
    else (Except.error "client.connect failed", [Ev.containerStart])
  else (Except.error "PostgreSqlContainer.start failed", [])

/-- Shallow embedding of withMockClientAndBoss from
src/pgmock-demo.test.ts.  PostgresMock.create and the connection-string
assembly happen before the try block, but boss.start is awaited inside
the try block, so the finally clause (boss.stop then mock.destroy) runs
even when boss.start throws. -/
def withMockClientAndBoss {α : Type} (provisionOk startOk : Bool)
    (body : Except String α) : Except String α × List Ev :=
  if provisionOk then
    if startOk then
      match body with
      | Except.ok a =>
        (Except.ok a, [Ev.mockCreate, Ev.bossStart, Ev.bossStop, Ev.mockDestroy])
      | Except.error e =>
        (Except.error e, [Ev.mockCreate, Ev.bossStart, Ev.bossStop, Ev.mockDestroy])
    else
      (Except.error "boss.start failed", [Ev.mockCreate, Ev.bossStop, Ev.mockDestroy])
  else (Except.error "PostgresMock.create failed", [])

/-- The connection parameters reported by mock.getNodePostgresConfig. -/
structure PgConfig where
  user : String
  password : String
  host : String
  port : Nat
deriving DecidableEq, Repr

/-- Shallow embedding of the template literal in withMockClientAndBoss
that builds the pg-boss connection string from the emulator config. -/
def connectionString (c : PgConfig) : String :=
  "postgresql://" ++ c.user ++ ":" ++ c.password ++ "@" ++ c.host ++ ":"
    ++ toString c.port ++ "/postgres"

/-- Modelled from the spec: a connection string assembled from exactly
the backend's reported user, password, host and port, with a fallback
database name substituted as the database component. -/
def specConnectionString (c : PgConfig) (fallbackDb : String) : String :=
  "postgresql://" ++ c.user ++ ":" ++ c.password ++ "@" ++ c.host ++ ":"
    ++ toString c.port ++ ("/" ++ fallbackDb)

/-- A row of the users table as created by the test scripts. -/
structure Row where
  id : Int
  name : String
  age : Int
deriving DecidableEq, Repr

/-- Modelled from the spec: the observable database state of one
disposable backend.  The test scripts only ever touch the users table,
so the state is that table: none before CREATE TABLE, some rows after
(in insertion order). -/
structure DB where
  users : Option (List Row)
deriving DecidableEq, Repr

/-- A freshly provisioned backend has no prior schema. -/
def freshDB : DB := ⟨none⟩

/-- The error message PostgreSQL raises for a query on the missing
users table. -/
def relMsg : String := "relation \"users\" does not exist"

/-- Modelled from the spec: CREATE TABLE users succeeds on a backend
without the table and yields an empty table. -/
def DB.createUsers (db : DB) : Except String DB :=
  match db.users with
  | none => Except.ok ⟨some []⟩
  | some _ => Except.error "relation \"users\" already exists"

/-- Modelled from the spec: INSERT INTO users appends a row; it fails
when the table is missing or the primary key is taken. -/
def DB.insertRow (db : DB) (r : Row) : Except String DB :=
  match db.users with
  | none => Except.error relMsg
  | some rows =>
    if rows.any (fun q => q.id == r.id) then
      Except.error "duplicate key value violates unique constraint \"users_pkey\""
    else Except.ok ⟨some (rows ++ [r])⟩

/-- Modelled from the spec: SELECT * FROM users fails on a missing
table and otherwise returns the rows. -/
def DB.selectAll (db : DB) : Except String (List Row) :=
  match db.users with
  | none => Except.error relMsg
  | some rows => Except.ok rows

/-- Insert a row into a list kept sorted by ascending id. -/
def insertSorted (r : Row) : List Row → List Row
  | [] => [r]
  | q :: qs => if r.id ≤ q.id then r :: q :: qs else q :: insertSorted r qs

/-- Sort rows by ascending id. -/
def sortById (l : List Row) : List Row := l.foldr insertSorted []

/-- Modelled from the spec: SELECT * FROM users ORDER BY id. -/
def DB.selectAllOrderById (db : DB) : Except String (List Row) :=
  match db.users with
  | none => Except.error relMsg
  | some rows => Except.ok (sortById rows)

/-- Modelled from the spec: SELECT name FROM users WHERE age > n. -/
def DB.selectNamesAgeGt (db : DB) (n : Int) : Except String (List String) :=
  match db.users with
  | none => Except.error relMsg
  | some rows => Except.ok ((rows.filter (fun r => decide (n < r.age))).map Row.name)

/-- True when the outcome is Except.ok. -/
def exceptIsOk {ε α : Type} : Except ε α → Bool
  | Except.ok _ => true
  | Except.error _ => false

/-- ASCII lower-casing of one character, as the i regex flag applies it
to the error messages at hand. -/
def lcChar (c : Char) : Char :=
  if c.isUpper then Char.ofNat (c.toNat + 32) else c

/-- Whether pat is a prefix of s; when it is, return the rest of s. -/
def dropMatch (pat : List Char) (s : List Char) : Option (List Char) :=
  match pat, s with
  | [], rest => some rest
  | _ :: _, [] => none
  | a :: as, b :: bs => if a = b then dropMatch as bs else none

/-- Find the first occurrence of pat in s and return what follows it. -/
def findSub (pat : List Char) : List Char → Option (List Char)
  | [] => dropMatch pat []
  | c :: cs =>
    match dropMatch pat (c :: cs) with
    | some rest => some rest
    | none => findSub pat cs

/-- The test regex relation-dot-star-does-not-exist with the
case-insensitive flag: after lower-casing, the message contains
"relation" and, somewhere after it, "does not exist". -/
def regexRelationMatch (s : String) : Bool :=
  let t := s.toList.map lcChar
  match findSub ("relation".toList) t with
  | some rest => (findSub ("does not exist".toList) rest).isSome
  | none => false

/-- A world of independently provisioned backends, one per index. -/
abbrev World := Nat → DB

/-- The world in which every backend is freshly provisioned. -/
def freshWorld : World := fun _ => freshDB

/-- The state-changing SQL statements the isolation tests issue. -/
inductive SqlOp where
  | createUsers
  | insertRow (r : Row)
deriving DecidableEq, Repr

/-- Effect of one statement on one backend state (errors change
nothing). -/
def SqlOp.apply (op : SqlOp) (db : DB) : DB :=
  match op with
  | SqlOp.createUsers =>
    match db.createUsers with
    | Except.ok d => d
    | Except.error _ => db
  | SqlOp.insertRow r =>
    match db.insertRow r with
    | Except.ok d => d
    | Except.error _ => db

/-- Run one statement addressed to the backend named by the tag; every
other backend is untouched. -/
def stepT (w : World) (p : Nat × SqlOp) : World :=
  fun j => if j = p.1 then SqlOp.apply p.2 (w p.1) else w j

/-- Run a sequence of tagged statements. -/
def runOps (w : World) (ops : List (Nat × SqlOp)) : World := ops.foldl stepT w

/-- The rows the suite-scoped script inserts. -/
def rowAlice : Row := ⟨1, "Alice", 30⟩

def rowBob : Row := ⟨2, "Bob", 25⟩

def rowCharlie : Row := ⟨3, "Charlie", 35⟩

/-- The create-and-insert script of the suite-scoped test case: CREATE
TABLE users followed by the three INSERT statements, in source order. -/
def suitePopulate (db : DB) : Except String DB := do
  let d1 ← db.createUsers
  let d2 ← d1.insertRow rowAlice
  let d3 ← d2.insertRow rowBob
  d3.insertRow rowCharlie

/-- A pg-boss job payload, modelled as key-value pairs. -/
abbrev Payload := List (String × String)

/-- Modelled from the spec: the lifecycle state of a job record. -/
inductive JobState where
  | created
  | active
  | completed
deriving DecidableEq, Repr

/-- Modelled from the spec: a job record with id, data and state. -/
structure Job where
  id : Nat
  data : Payload
  state : JobState
deriving DecidableEq, Repr

/-- Modelled from the spec: the job-queue state, a map from queue name
to its jobs plus the next fresh job id. -/
structure Boss where
  queues : List (String × List Job)
  nextId : Nat
deriving DecidableEq, Repr

/-- The queue with the given name (empty when never used). -/
def getQueue (b : Boss) (q : String) : List Job :=
  match b.queues.lookup q with
  | some js => js
  | none => []

/-- A started pg-boss instance with no jobs yet. -/
def emptyBoss : Boss := ⟨[], 1⟩

/-- Modelled from the spec: send appends a job in the created state and
returns its fresh id. -/
def Boss.send (b : Boss) (q : String) (d : Payload) : Nat × Boss :=
  (b.nextId, ⟨(q, getQueue b q ++ [⟨b.nextId, d, JobState.created⟩]) :: b.queues, b.nextId + 1⟩)

/-- Modelled from the spec: fetch returns the jobs of the queue that
are still in the created state and marks them active. -/
def Boss.fetch (b : Boss) (q : String) : List Job × Boss :=
  let js := getQueue b q
  ((js.filter (fun j => j.state == JobState.created)).map
      (fun j => ⟨j.id, j.data, JobState.active⟩),
    ⟨(q, js.map (fun j =>
        if j.state == JobState.created then ⟨j.id, j.data, JobState.active⟩ else j))
        :: b.queues, b.nextId⟩)

/-- Modelled from the spec: complete marks the job with the given id in
the given queue completed, erring when no such job exists. -/
def Boss.complete (b : Boss) (q : String) (jid : Nat) : Except String Boss :=
  let js := getQueue b q
  if js.any (fun j => j.id == jid) then
    Except.ok ⟨(q, js.map (fun j =>
        if j.id == jid then ⟨j.id, j.data, JobState.completed⟩ else j)) :: b.queues, b.nextId⟩
  else Except.error "job not found"

/-- The queue name and payload of the round-trip test. -/
def demoQueue : String := "demo-job"

def helloPayload : Payload := [("hello", "world")]

/-- The boss state right after the send of the round-trip test. -/
def bossAfterSend : Boss := (Boss.send emptyBoss demoQueue helloPayload).2

/-- The fetch of the round-trip test. -/
def fetchResult : List Job × Boss := Boss.fetch bossAfterSend demoQueue

/-- The first fetched job (a dummy default is never reached). -/
def firstJob : Job := fetchResult.1.headD ⟨0, [], JobState.created⟩

/-- On a backend that a tagged statement does not address, the
statement changes nothing. -/
theorem stepT_frame (w : World) (p : Nat × SqlOp) (b : Nat) (h : p.1 ≠ b) :
    stepT w p b = w b := by
  show (if b = p.1 then SqlOp.apply p.2 (w p.1) else w b) = w b
  exact if_neg (fun hh => h hh.symm)

/-- A run of statements all addressed to other backends leaves a
backend's state unchanged. -/
theorem runOps_frame (b : Nat) :
    ∀ (ops : List (Nat × SqlOp)) (w : World),
      (∀ p ∈ ops, p.1 ≠ b) → runOps w ops b = w b
  | [], _, _ => rfl
  | p :: ps, w, h => by
    have hstep : stepT w p b = w b :=
      stepT_frame w p b (h p (List.mem_cons_self p ps))
    have ih := runOps_frame b ps (stepT w p)
      (fun q hq => h q (List.mem_cons_of_mem p hq))
    show runOps (stepT w p) ps b = w b
    rw [ih, hstep]

/-- C1: when provisioning and connect succeed, both scoped-acquisition
wrappers propagate exactly the body's outcome (normal return and thrown
error alike, assertion failures included) and their event trace closes
the client first and tears down the backend second, so neither is
leaked. -/
theorem c1_scoped_wrapper_cleanup (α : Type) (body : Except String α) :
    (withMockClient true true body).1 = body ∧
    (withMockClient true true body).2
      = [Ev.mockCreate, Ev.clientConnect, Ev.clientEnd, Ev.mockDestroy] ∧
    (withContainerClient true true body).1 = body ∧
    (withContainerClient true true body).2
      = [Ev.containerStart, Ev.clientConnect, Ev.clientEnd, Ev.containerStop] := by
  cases body <;> exact ⟨rfl, rfl, rfl, rfl⟩

/-- C2 counterexample: when provisioning succeeds and client.connect
fails, both wrappers stop before their protected region, so the
already-provisioned backend is never torn down, refuting guaranteed
cleanup of everything already acquired. -/
theorem c2_connect_failure_leaks_backend :
    Ev.mockCreate ∈ (withMockClient true false (Except.ok ())).2 ∧
    Ev.mockDestroy ∉ (withMockClient true false (Except.ok ())).2 ∧
    Ev.containerStart ∈ (withContainerClient true false (Except.ok ())).2 ∧
    Ev.containerStop ∉ (withContainerClient true false (Except.ok ())).2 := by
  decide

/-- C2 amended: when the failing operation is the body itself (a query
or an assertion), the wrappers clean up both client and backend, and a
provisioning failure acquires nothing so there is nothing to leak; but
when client.connect fails after successful provisioning, the backend is
not torn down, because the connect call lies outside the protected
region. -/
theorem c2_cleanup_scope (e : String) :
    (withMockClient true true (Except.error e : Except String Unit)).2
      = [Ev.mockCreate, Ev.clientConnect, Ev.clientEnd, Ev.mockDestroy] ∧
    (withMockClient false true (Except.ok ())).2 = [] ∧
    (withMockClient true false (Except.ok ())).2 = [Ev.mockCreate] ∧
    (withContainerClient true true (Except.error e : Except String Unit)).2
      = [Ev.containerStart, Ev.clientConnect, Ev.clientEnd, Ev.containerStop] ∧
    (withContainerClient false true (Except.ok ())).2 = [] ∧
    (withContainerClient true false (Except.ok ())).2 = [Ev.containerStart] :=
  ⟨rfl, rfl, rfl, rfl, rfl, rfl⟩

/-- C3: two independently provisioned case-scoped backends never
observe each other's schema or data: whatever statements one case runs
against its own backend, and however they interleave with the other
case's query, querying users on the other, freshly provisioned backend
still fails with the relation-does-not-exist error. -/
theorem c3_case_scoped_isolation (a b : Nat) (hab : a ≠ b)
    (l1 l2 : List (Nat × SqlOp))
    (h1 : ∀ p ∈ l1, p.1 = a) (h2 : ∀ p ∈ l2, p.1 = a)
    (w : World) (hb : w b = freshDB) :
    DB.selectAll (runOps w l1 b) = Except.error relMsg ∧
    DB.selectAll (runOps w (l1 ++ l2) b) = Except.error relMsg ∧
    regexRelationMatch relMsg = true := by
  have hn1 : ∀ p ∈ l1, p.1 ≠ b := fun p hp => by rw [h1 p hp]; exact hab
  have hn12 : ∀ p ∈ l1 ++ l2, p.1 ≠ b := by
    intro p hp
    rcases List.mem_append.mp hp with h | h
    · rw [h1 p h]; exact hab
    · rw [h2 p h]; exact hab
  have e1 : runOps w l1 b = freshDB := by rw [runOps_frame b l1 w hn1, hb]
  have e2 : runOps w (l1 ++ l2) b = freshDB := by
    rw [runOps_frame b (l1 ++ l2) w hn12, hb]
  exact ⟨by rw [e1]; rfl, by rw [e2]; rfl, by decide⟩

/-- C3 witness: backend 0 creates the users table and inserts a row;
backend 1, freshly provisioned, still errors on the users query at both
interleaving points. -/
theorem c3_case_scoped_isolation_witness :
    DB.selectAll (runOps freshWorld [(0, SqlOp.createUsers)] 1)
      = Except.error relMsg ∧
    DB.selectAll
        (runOps freshWorld
          ([(0, SqlOp.createUsers)] ++ [(0, SqlOp.insertRow rowAlice)]) 1)
      = Except.error relMsg ∧
    regexRelationMatch relMsg = true :=
  c3_case_scoped_isolation 0 1 (by decide)
    [(0, SqlOp.createUsers)] [(0, SqlOp.insertRow rowAlice)]
    (by decide) (by decide) freshWorld rfl

/-- C4: under suite-scoped sharing, the state the create-and-insert
case builds persists unchanged, so a later case of the same suite
selecting from users gets exactly the three inserted rows. -/
theorem c4_suite_level_persistence :
    suitePopulate freshDB = Except.ok ⟨some [rowAlice, rowBob, rowCharlie]⟩ ∧
    DB.selectAll ⟨some [rowAlice, rowBob, rowCharlie]⟩
      = Except.ok [rowAlice, rowBob, rowCharlie] ∧
    [rowAlice, rowBob, rowCharlie].length = 3 :=
  ⟨rfl, rfl, rfl⟩

/-- C5: on a freshly provisioned backend, the users query never
succeeds: it fails, and its message matches the
relation-dot-star-does-not-exist pattern case-insensitively. -/
theorem c5_fresh_backend_relation_error :
    DB.selectAll freshDB = Except.error relMsg ∧
    regexRelationMatch relMsg = true ∧
    exceptIsOk (DB.selectAll freshDB) = false :=
  ⟨rfl, by decide, rfl⟩

/-- C6: after sending the hello-world payload to the demo queue,
fetching that queue returns at least one job whose data equals the
payload, and completing that job by its id succeeds. -/
theorem c6_job_round_trip :
    0 < fetchResult.1.length ∧
    firstJob.data = helloPayload ∧
    exceptIsOk (Boss.complete fetchResult.2 demoQueue firstJob.id) = true := by
  decide

/-- C7: after the create-and-insert script, the ORDER BY id query
returns exactly the three rows, in ascending id order, named Alice, Bob
and Charlie respectively. -/
theorem c7_ordered_select :
    suitePopulate freshDB = Except.ok ⟨some [rowAlice, rowBob, rowCharlie]⟩ ∧
    DB.selectAllOrderById ⟨some [rowAlice, rowBob, rowCharlie]⟩
      = Except.ok [rowAlice, rowBob, rowCharlie] ∧
    [rowAlice, rowBob, rowCharlie].length = 3 ∧
    rowAlice.id < rowBob.id ∧ rowBob.id < rowCharlie.id ∧
    [rowAlice, rowBob, rowCharlie].map Row.name = ["Alice", "Bob", "Charlie"] :=
  ⟨rfl, rfl, rfl, by decide, by decide, rfl⟩

/-- C8: on the same data, selecting names of users older than 30
returns exactly one row, Charlie. -/
theorem c8_age_filter :
    suitePopulate freshDB = Except.ok ⟨some [rowAlice, rowBob, rowCharlie]⟩ ∧
    DB.selectNamesAgeGt ⟨some [rowAlice, rowBob, rowCharlie]⟩ 30
      = Except.ok ["Charlie"] ∧
    (["Charlie"] : List String).length = 1 :=
  ⟨rfl, rfl, rfl⟩

/-- C9: the connection string handed to pg-boss is assembled from
exactly the emulator config's user, password, host and port, with the
fixed fallback database name postgres as the database component. -/
theorem c9_connection_string (c : PgConfig) :
    connectionString c = specConnectionString c "postgres" :=
  rfl

/-- C10: in the job-queue harness, the cleanup sequence boss.stop then
mock.destroy runs when boss.start itself throws, exactly as when the
body throws, because the start call sits inside the protected region. -/
theorem c10_boss_start_failure_cleanup (α : Type) (body : Except String α) :
    (withMockClientAndBoss true false body).2
      = [Ev.mockCreate, Ev.bossStop, Ev.mockDestroy] ∧
    (withMockClientAndBoss true true body).2
      = [Ev.mockCreate, Ev.bossStart, Ev.bossStop, Ev.mockDestroy] := by
  cases body <;> exact ⟨rfl, rfl⟩
